import Mathlib

/-!
Shallow embedding of the PawCare reminder / due-date domain logic.

Calendar dates that only ever get compared (SQL `DATE` columns, ISO-8601
strings compared by SQLite) are modelled as `Int` — the number of days since
an arbitrary epoch; lexicographic comparison of fixed-width ISO date strings
agrees with this order.  The anniversary materializer in the dogs route does
structural year/month/day arithmetic through the JS `Date` constructor, so it
gets a structural calendar-date type `CDate` further below.

Rows are records holding the columns the domain logic reads or writes; SQL
`NULL`-able columns are `Option`.  Each definition is translated from the
TypeScript source file named in its doc comment.
-/

namespace PawCare

/-- Row of the `vaccinations` table (schema in `db/init`): `next_due_date` is
a nullable `DATE`, `reminder_sent` is `BOOLEAN DEFAULT FALSE`. -/
structure Vaccination where
  id : Nat
  dog_id : Nat
  vaccine_name : String
  date_administered : Int
  next_due_date : Option Int
  administered_by : Option String
  lot_number : Option String
  notes : Option String
  reminder_sent : Bool
  deriving DecidableEq, Repr

/-- Row of the `events` table (schema in `db/init`): `event_type` is one of
the six enum strings, `reminder_days_before INTEGER DEFAULT 1`,
`is_recurring BOOLEAN DEFAULT FALSE`, `is_active BOOLEAN DEFAULT TRUE`. -/
structure Event where
  id : Nat
  user_id : Nat
  dog_id : Option Nat
  title : String
  description : Option String
  event_type : String
  event_date : Int
  is_recurring : Bool
  recurrence_pattern : Option String
  reminder_days_before : Int
  is_active : Bool
  deriving DecidableEq, Repr

/-- Row of the `dogs` table, reduced to the columns the ownership checks and
the anniversary logic read. -/
structure Dog where
  id : Nat
  user_id : Nat
  deriving DecidableEq, Repr

/-- The inclusive reminder-window test `today <= target AND target <= today + w`
that appears (with `w = 7`) in the vaccination scan query of
`src/services/scheduler.ts` (`next_due_date <= ? AND next_due_date >= ?`) and
(with `w = reminder_days_before`) in its event scan query
(`date(event_date) BETWEEN date(?) AND date(?, reminder_days_before days)`);
SQL `BETWEEN` is inclusive on both ends. -/
def windowSelected (today target w : Int) : Bool :=
  decide (today ≤ target) && decide (target ≤ today + w)

/-- Selection predicate of the daily vaccination scan query
(`src/services/scheduler.ts`, `checkVaccinationReminders`):
`next_due_date <= today+7 AND next_due_date >= today AND reminder_sent = 0`.
A SQL comparison with a `NULL` `next_due_date` is not true, so a row without
a due date is never selected. -/
def vaxSelected (today : Int) (v : Vaccination) : Bool :=
  match v.next_due_date with
  | none => false
  | some d => windowSelected today d 7 && !v.reminder_sent

/-- Selection predicate of the daily event scan query
(`src/services/scheduler.ts`, `checkEventReminders`): `is_active = 1 AND
date(event_date) BETWEEN date(today) AND date(today, +reminder_days_before days)`. -/
def eventSelected (today : Int) (e : Event) : Bool :=
  e.is_active && windowSelected today e.event_date e.reminder_days_before

/-- The per-row state effect of the vaccination scan loop: every selected row
gets `UPDATE vaccinations SET reminder_sent = 1 WHERE id = ?`; the update is
keyed by the primary key of the selected row itself, so row-wise it sets the
flag exactly on the selected rows. -/
def scanStep (today : Int) (v : Vaccination) : Vaccination :=
  if vaxSelected today v then { v with reminder_sent := true } else v

/-- `checkVaccinationReminders` (`src/services/scheduler.ts` lines 30-53):
returns the list of rows a reminder is logged for, together with the table
after the scan (flag set on each reminded row). -/
def checkVaccinationReminders (today : Int) (vs : List Vaccination) :
    List Vaccination × List Vaccination :=
  (vs.filter (vaxSelected today), vs.map (scanStep today))

/-- `checkEventReminders` (`src/services/scheduler.ts` lines 55-75): pure
read — it logs the selected events and writes nothing. -/
def checkEventReminders (today : Int) (es : List Event) : List Event :=
  es.filter (eventSelected today)

/-- One tick of the daily cron job (`initScheduler`): run the vaccination
check, then the event check.  The emissions and the post-state. -/
def scanOnce (today : Int) (vs : List Vaccination) (es : List Event) :
    (List Vaccination × List Event) × (List Vaccination × List Event) :=
  let r := checkVaccinationReminders today vs
  ((r.1, checkEventReminders today es), (r.2, es))

/-- The overdue condition shared by the `/api/vaccinations/upcoming` route
(`next_due_date < today AND next_due_date IS NOT NULL`) and the
`/api/health/summary` route (`next_due_date < date(now) AND next_due_date IS
NOT NULL`): a row is overdue iff it has a due date and it is strictly before
today. -/
def isOverdue (today : Int) (target : Option Int) : Bool :=
  match target with
  | none => false
  | some d => decide (d < today)

/-! ## HTTP handlers (routes) -/

/-- An error response: HTTP status code and the `error` field of the JSON
body. -/
structure ErrResp where
  status : Nat
  error : String
  deriving DecidableEq, Repr

/-- Body of `POST /api/vaccinations`; request fields are `Option` because a
field may be absent — JS falsy strings (absent, `null`, empty) are `none`. -/
structure VaxRequest where
  dog_id : Option Nat
  vaccine_name : Option String
  date_administered : Option Int
  next_due_date : Option Int
  administered_by : Option String
  lot_number : Option String
  notes : Option String
  deriving DecidableEq, Repr

/-- Ownership lookup `SELECT * FROM dogs WHERE id = ? AND user_id = ?`
used by every per-dog route. -/
def findOwnedDog (dogs : List Dog) (dogId userId : Nat) : Option Dog :=
  dogs.find? (fun d => d.id == dogId && d.user_id == userId)

/-- `POST /api/vaccinations` (vaccinations route, lines 86-132): validate the
three required fields, check dog ownership, insert the vaccination row
(`reminder_sent` takes its schema default `FALSE`), and insert a companion
`vet_appointment` event with `reminder_days_before = 14` and
`event_date = next_due_date` exactly when `next_due_date` is truthy.
`newVaxId`/`newEventId` stand for the two generated `uuidv4()` values.
Returns the created vaccination row and the list of event rows created. -/
def postVaccination (dogs : List Dog) (userId newVaxId newEventId : Nat)
    (req : VaxRequest) : Except ErrResp (Vaccination × List Event) :=
  match req.dog_id, req.vaccine_name, req.date_administered with
  | some dogId, some name, some dateAdm =>
    match findOwnedDog dogs dogId userId with
    | none => .error ⟨404, "Dog not found"⟩
    | some _ =>
      let vax : Vaccination :=
        ⟨newVaxId, dogId, name, dateAdm, req.next_due_date,
         req.administered_by, req.lot_number, req.notes, false⟩
      let evs : List Event :=
        match req.next_due_date with
        | some due =>
          [⟨newEventId, userId, some dogId, name ++ " Vaccination Due",
            some "Vaccination reminder for your dog", "vet_appointment",
            due, false, none, 14, true⟩]
        | none => []
      .ok (vax, evs)
  | _, _, _ =>
    .error ⟨400, "dog_id, vaccine_name, and date_administered are required"⟩

/-- COALESCE patch of `PUT /api/vaccinations/:id` (lines 135-168): each
field is updated only when the request supplies it; the column list is
exactly `vaccine_name, date_administered, next_due_date, administered_by,
lot_number, notes` — `reminder_sent` is not among them. -/
structure VaxPatch where
  vaccine_name : Option String
  date_administered : Option Int
  next_due_date : Option Int
  administered_by : Option String
  lot_number : Option String
  notes : Option String
  deriving DecidableEq, Repr

/-- Apply the `UPDATE vaccinations SET col = COALESCE(?, col) ...` statement
to one row. -/
def applyPatch (p : VaxPatch) (v : Vaccination) : Vaccination :=
  { v with
    vaccine_name := p.vaccine_name.getD v.vaccine_name
    date_administered := p.date_administered.getD v.date_administered
    next_due_date := match p.next_due_date with
      | some d => some d
      | none => v.next_due_date
    administered_by := match p.administered_by with
      | some a => some a
      | none => v.administered_by
    lot_number := match p.lot_number with
      | some l => some l
      | none => v.lot_number
    notes := match p.notes with
      | some n => some n
      | none => v.notes }

/-- The operations that touch rows of the `vaccinations` table: the POST
route (insert with flag defaulting to `FALSE`; the `TEXT PRIMARY KEY`
rejects a duplicate id, in which case the caught error leaves the store
unchanged), the PUT route (COALESCE patch on one id), the DELETE route, and
the daily scan. -/
inductive VaxOp where
  | create (row : Vaccination)
  | update (id : Nat) (p : VaxPatch)
  | delete (id : Nat)
  | scan (today : Int)
  deriving Repr

/-- Effect of one operation on the `vaccinations` table. -/
def applyOp (op : VaxOp) (s : List Vaccination) : List Vaccination :=
  match op with
  | .create row =>
    if s.any (fun v => v.id == row.id) then s
    else s ++ [{ row with reminder_sent := false }]
  | .update i p => s.map (fun v => if v.id == i then applyPatch p v else v)
  | .delete i => s.filter (fun v => !(v.id == i))
  | .scan today => (checkVaccinationReminders today s).2

/-- A sequence of API operations and scan runs, applied in order. -/
def applyOps (ops : List VaxOp) (s : List Vaccination) : List Vaccination :=
  ops.foldl (fun acc op => applyOp op acc) s

/-- `GET /api/dogs/:id` (dogs route, lines 51-78): the ownership-scoped
lookup; a missing row and a row owned by another user take the same branch
and produce the same `404 Dog not found` response.  The success payload is
the dog row (the sub-resource lists it additionally carries do not affect
the error path). -/
def getDog (dogs : List Dog) (userId dogId : Nat) : Except ErrResp Dog :=
  match findOwnedDog dogs dogId userId with
  | none => .error ⟨404, "Dog not found"⟩
  | some d => .ok d

/-- `GET /api/vaccinations/dog/:dogId` (vaccinations route, lines 41-83):
verify dog ownership the same way, then return (all, upcoming, overdue)
vaccinations of the dog, where upcoming is `next_due_date >= today` and
overdue is `next_due_date < today AND next_due_date IS NOT NULL`. -/
def getDogVaccinations (dogs : List Dog) (vaxs : List Vaccination)
    (userId dogId : Nat) (today : Int) :
    Except ErrResp (List Vaccination × List Vaccination × List Vaccination) :=
  match findOwnedDog dogs dogId userId with
  | none => .error ⟨404, "Dog not found"⟩
  | some _ =>
    let mine := vaxs.filter (fun v => v.dog_id == dogId)
    let upcoming := mine.filter (fun v =>
      match v.next_due_date with
      | some d => decide (today ≤ d)
      | none => false)
    let overdue := mine.filter (fun v => isOverdue today v.next_due_date)
    .ok (mine, upcoming, overdue)

/-- Body of `POST /api/events`; `is_recurring` is taken by JS truthiness
(`is_recurring ? 1 : 0`), so it is a plain `Bool` here; `reminder_days_before`
is `Option Int` with `none` for an absent field. -/
structure EventRequest where
  dog_id : Option Nat
  title : Option String
  description : Option String
  event_type : Option String
  event_date : Option Int
  is_recurring : Bool
  recurrence_pattern : Option String
  reminder_days_before : Option Int
  deriving DecidableEq, Repr

/-- The stored reminder lead time of `POST /api/events`:
`reminder_days_before || 1` — JS `||` replaces every falsy value, so both an
absent field and an explicit `0` become the default `1`, while any nonzero
integer (negative included) passes through. -/
def storedReminder (r : Option Int) : Int :=
  match r with
  | none => 1
  | some v => if v = 0 then 1 else v

/-- `POST /api/events` (`src/routes/events.ts` lines 86-124): `title` and
`event_date` are required (400 otherwise); when `dog_id` is supplied the dog
must be owned by the caller (404 otherwise); the inserted row takes
`event_type || 'custom'`, `reminder_days_before || 1`, `is_recurring ? 1 : 0`,
and the schema default `is_active = TRUE`. -/
def createEvent (dogs : List Dog) (userId newId : Nat) (req : EventRequest) :
    Except ErrResp Event :=
  match req.title, req.event_date with
  | some title, some date =>
    let row : Event :=
      ⟨newId, userId, req.dog_id, title, req.description,
       req.event_type.getD "custom", date, req.is_recurring,
       req.recurrence_pattern, storedReminder req.reminder_days_before, true⟩
    match req.dog_id with
    | some dogId =>
      match findOwnedDog dogs dogId userId with
      | none => .error ⟨404, "Dog not found"⟩
      | some _ => .ok row
    | none => .ok row
  | _, _ => .error ⟨400, "Title and event_date are required"⟩

/-- The companion event of `POST /api/health/medication` (health route,
lines 246-257): created only when a `frequency` string is supplied, with
`event_type = 'medication'`, `event_date = start_date`, `is_recurring = 1`,
`recurrence_pattern = frequency` and a literal `reminder_days_before = 0`.
`name`/`dosage` only feed the title and description strings. -/
def medicationCompanionEvents (userId newEventId : Nat) (dogId : Nat)
    (name : String) (dosage : Option String) (frequency : Option String)
    (startDate : Int) : List Event :=
  match frequency with
  | some freq =>
    [⟨newEventId, userId, some dogId, "Give " ++ name ++ " medication",
      some ("Dosage: " ++ dosage.getD "As prescribed" ++ ". Frequency: " ++ freq),
      "medication", startDate, true, some freq, 0, true⟩]
  | none => []

/-! ## Anniversary materializer (dogs route)

`POST /api/dogs` composes "this year's occurrence" of a birthday or adoption
anniversary through the JS `Date` constructor:
`new Date(new Date().getFullYear(), src.getMonth(), src.getDate())`, then
compares that midnight-of-date against `new Date()` — the current instant,
time of day included — and rolls the year forward when it is smaller.
We model a JS calendar date structurally (month `0`-`11` as in JS), and the
current instant as today's calendar date plus a flag telling whether the
current time of day is strictly past midnight. -/

/-- A JS calendar date: year, month `0`-`11`, day of month `1`-based. -/
structure CDate where
  year : Int
  month : Int
  day : Int
  deriving DecidableEq, Repr

/-- Gregorian leap-year rule, as implemented by the JS `Date` object. -/
def isLeap (y : Int) : Bool :=
  y % 4 == 0 && (y % 100 != 0 || y % 400 == 0)

/-- Number of days of month `m` (`0`-`11`) in year `y`. -/
def daysInMonth (y m : Int) : Int :=
  if m = 1 then (if isLeap y then 29 else 28)
  else if m = 3 ∨ m = 5 ∨ m = 8 ∨ m = 10 then 30
  else 31

/-- A calendar date whose components lie in range. -/
def validDate (c : CDate) : Prop :=
  0 ≤ c.month ∧ c.month ≤ 11 ∧ 1 ≤ c.day ∧ c.day ≤ daysInMonth c.year c.month

instance (c : CDate) : Decidable (validDate c) := by
  unfold validDate; infer_instance

/-- `new Date(y, m, d)` / `setFullYear`: JS normalizes a day-of-month
overflow by rolling the excess days into the following month.  For the
inputs reachable here — a month/day pair taken from a valid calendar date,
recombined with another year — the only possible overflow is Feb 29 in a
non-leap year (by one day, into March), so one rolling step is the exact JS
behavior on this domain. -/
def mkDate (y m d : Int) : CDate :=
  if d > daysInMonth y m then ⟨y, m + 1, d - daysInMonth y m⟩ else ⟨y, m, d⟩

/-- Strict calendar order on `CDate` (lexicographic on year, month, day);
for valid dates this is the chronological order of their midnights, i.e. the
order of the underlying JS timestamps. -/
def dateLt (a b : CDate) : Bool :=
  decide (a.year < b.year) ||
    (a.year == b.year && (decide (a.month < b.month) ||
      (a.month == b.month && decide (a.day < b.day))))

/-- The comparison `thisYearBirthday < new Date()` of the dogs route:
`thisYearBirthday` is the midnight timestamp of the composed date `c`, and
`new Date()` is the current instant — `today`'s midnight plus the current
time of day.  So the test holds when `c` is a calendar day before `today`,
or when `c` equals `today` and the clock is strictly past midnight. -/
def jsBeforeNow (c today : CDate) (afterMidnight : Bool) : Bool :=
  dateLt c today || (c == today && afterMidnight)

/-- The composed anniversary date of `POST /api/dogs` (lines 139-164): take
month/day from the source date, pair with the current year; if the result is
smaller than the current instant, `setFullYear(year + 1)`. -/
def anniversaryDate (src today : CDate) (afterMidnight : Bool) : CDate :=
  let composed := mkDate today.year src.month src.day
  if jsBeforeNow composed today afterMidnight then
    mkDate (composed.year + 1) composed.month composed.day
  else composed

/-- An event row as created by the dogs route, with its structural calendar
date (the stored `event_date` string is the ISO form of this date). -/
structure CalEvent where
  title : String
  event_type : String
  event_date : CDate
  is_recurring : Bool
  recurrence_pattern : Option String
  reminder_days_before : Int
  deriving DecidableEq, Repr

/-- The event rows created by `POST /api/dogs` (lines 138-164): one
`birthday` event when `date_of_birth` is supplied and one
`adoption_anniversary` event when `adoption_date` is supplied, both
recurring yearly with a 7-day reminder lead and the composed anniversary
date. -/
def dogCreationEvents (name : String) (dob adoption : Option CDate)
    (today : CDate) (afterMidnight : Bool) : List CalEvent :=
  (match dob with
   | some s =>
     [⟨name ++ "\x27s Birthday", "birthday", anniversaryDate s today afterMidnight,
       true, some "yearly", 7⟩]
   | none => []) ++
  (match adoption with
   | some s =>
     [⟨name ++ "\x27s Gotcha Day", "adoption_anniversary",
       anniversaryDate s today afterMidnight, true, some "yearly", 7⟩]
   | none => [])

/-! ## Food database and search -/

/-- Row of the `food_database` table, reduced to the columns the search
predicate reads (`food_name`, `category`) plus the classification columns it
returns; the remaining free-text columns (description, benefits, risks,
serving suggestion, sources) take no part in the search condition. -/
structure FoodRow where
  food_name : String
  category : String
  is_safe : Bool
  safety_level : String
  deriving DecidableEq, Repr

/-- SQL `LOWER`, character by character on the text. -/
def lowerChars (s : String) : List Char :=
  s.toList.map Char.toLower

/-- `LOWER(col) LIKE LOWER('%q%')`: case-insensitive substring containment
(the seeded queries contain no further SQL wildcard characters). -/
def likeContains (hay q : String) : Bool :=
  decide (lowerChars q <:+: lowerChars hay)

/-- `ORDER BY food_name ASC` via insertion sort on the name column. -/
def insertByName (f : FoodRow) : List FoodRow → List FoodRow
  | [] => [f]
  | g :: gs =>
    if decide (f.food_name < g.food_name) then f :: g :: gs
    else g :: insertByName f gs

/-- Sort rows by `food_name` ascending. -/
def sortByName (rows : List FoodRow) : List FoodRow :=
  rows.foldr insertByName []

/-- The static rows seeded by `populateFoodDatabase` (db init, lines
486-526); names are pairwise distinct, so the `INSERT OR IGNORE` guarded by
the `UNIQUE` name inserts every one of them. -/
def foodDatabase : List FoodRow :=
  [⟨"Carrots", "vegetable", true, "safe"⟩,
   ⟨"Blueberries", "fruit", true, "safe"⟩,
   ⟨"Chicken", "protein", true, "safe"⟩,
   ⟨"Peanut Butter", "other", true, "safe_in_moderation"⟩,
   ⟨"Pumpkin", "vegetable", true, "safe"⟩,
   ⟨"Sweet Potato", "vegetable", true, "safe"⟩,
   ⟨"Apples", "fruit", true, "safe"⟩,
   ⟨"Salmon", "protein", true, "safe"⟩,
   ⟨"Rice", "grain", true, "safe"⟩,
   ⟨"Watermelon", "fruit", true, "safe"⟩,
   ⟨"Green Beans", "vegetable", true, "safe"⟩,
   ⟨"Eggs", "protein", true, "safe"⟩,
   ⟨"Chocolate", "toxic", false, "toxic"⟩,
   ⟨"Grapes", "toxic", false, "dangerous"⟩,
   ⟨"Raisins", "toxic", false, "dangerous"⟩,
   ⟨"Onions", "toxic", false, "toxic"⟩,
   ⟨"Garlic", "toxic", false, "toxic"⟩,
   ⟨"Xylitol", "toxic", false, "dangerous"⟩,
   ⟨"Alcohol", "toxic", false, "dangerous"⟩,
   ⟨"Avocado", "toxic", false, "toxic"⟩,
   ⟨"Macadamia Nuts", "toxic", false, "toxic"⟩,
   ⟨"Caffeine", "toxic", false, "toxic"⟩,
   ⟨"Raw Yeast Dough", "toxic", false, "dangerous"⟩,
   ⟨"Cooked Bones", "toxic", false, "dangerous"⟩]

/-- The filter of `GET /api/food/search` (food route, lines 30-35):
`LOWER(food_name) LIKE LOWER('%q%') OR LOWER(category) LIKE LOWER('%q%')`,
ordered by `food_name` ascending. -/
def searchFood (q : String) (rows : List FoodRow) : List FoodRow :=
  sortByName (rows.filter (fun f => likeContains f.food_name q || likeContains f.category q))

/-- `GET /api/food/search` (food route, lines 21-48): a missing or
non-string `q` is a 400; otherwise the matching rows are returned — an empty
match list is an ordinary 200 response, not an error. -/
def foodSearchHandler (q : Option String) : Except ErrResp (List FoodRow) :=
  match q with
  | none => .error ⟨400, "Search query is required"⟩
  | some s => .ok (searchFood s foodDatabase)

/-! ## Helper lemmas -/

/-- A row freshly touched by the scan step is never selected again on the
same day: either its flag was just set, or it was not selected to begin
with. -/
theorem vaxSelected_scanStep (today : Int) (v : Vaccination) :
    vaxSelected today (scanStep today v) = false := by
  unfold scanStep
  by_cases h : vaxSelected today v = true
  · simp only [h, if_true]
    unfold vaxSelected at h ⊢
    cases v.next_due_date with
    | none => rfl
    | some d => simp
  · simp only [Bool.not_eq_true] at h
    simp [h]

/-- The scan step never resets the flag. -/
theorem scanStep_mono (today : Int) (v : Vaccination)
    (h : v.reminder_sent = true) : (scanStep today v).reminder_sent = true := by
  unfold scanStep
  split <;> simp [h]

/-- The scan step does not change the row id. -/
theorem scanStep_id (today : Int) (v : Vaccination) :
    (scanStep today v).id = v.id := by
  unfold scanStep; split <;> rfl

/-- The COALESCE patch of the vaccination PUT route does not change the row
id. -/
theorem applyPatch_id (p : VaxPatch) (v : Vaccination) :
    (applyPatch p v).id = v.id := rfl

/-- With pairwise distinct ids, at most one row of the table carries a given
id. -/
theorem countP_id_le_one (i : Nat) (vs : List Vaccination)
    (h : (vs.map Vaccination.id).Nodup) :
    vs.countP (fun v => v.id == i) ≤ 1 := by
  induction vs with
  | nil => simp
  | cons a rest ih =>
    simp only [List.map_cons, List.nodup_cons] at h
    rw [List.countP_cons]
    by_cases ha : a.id = i
    · have hz : rest.countP (fun v => v.id == i) = 0 := by
        rw [List.countP_eq_zero]
        intro b hb
        simp only [beq_iff_eq]
        intro hbi
        exact h.1 (ha ▸ hbi ▸ List.mem_map_of_mem Vaccination.id hb)
      simp [ha, hz]
    · simpa [ha] using ih h.2

/-- Filtering a list can only lower a `countP`. -/
theorem countP_filter_le {α : Type} (p q : α → Bool) (l : List α) :
    List.countP p (l.filter q) ≤ List.countP p l := by
  induction l with
  | nil => simp
  | cons a rest ih =>
    rw [List.filter_cons, List.countP_cons]
    by_cases hq : q a
    · rw [if_pos hq, List.countP_cons]
      omega
    · rw [if_neg hq]
      omega

/-- With pairwise distinct ids, two rows of the table sharing an id are the
same row. -/
theorem flag_of_nodup (s : List Vaccination) (v : Vaccination)
    (h : (s.map Vaccination.id).Nodup) (hv : v ∈ s)
    (hf : v.reminder_sent = true) :
    ∀ u ∈ s, u.id = v.id → u.reminder_sent = true := by
  induction s with
  | nil => simp
  | cons a rest ih =>
    simp only [List.map_cons, List.nodup_cons] at h
    intro u hu hid
    rcases List.mem_cons.1 hu with hua | hur
    · rcases List.mem_cons.1 hv with hva | hvr
      · rw [hua, ← hva]
        exact hf
      · exfalso
        apply h.1
        rw [show a.id = v.id from by rw [← hua]; exact hid]
        exact List.mem_map_of_mem Vaccination.id hvr
    · rcases List.mem_cons.1 hv with hva | hvr
      · exfalso
        apply h.1
        rw [← hva, ← hid]
        exact List.mem_map_of_mem Vaccination.id hur
      · exact ih h.2 hvr u hur hid

/-! ## Claims -/

/-- C1 (counterexample): the claim's parenthetical says the daily
vaccination scan's 7-day query "selects exactly the vaccinations with
today ≤ next_due_date ≤ today + 7", but the query additionally filters
`reminder_sent = 0`: here a vaccination with `next_due_date = today`
(inside the window, since today ≤ today ≤ today + 7) whose flag is already
set is not selected. -/
theorem c1_counterexample :
    ((0 : Int) ≤ 0 ∧ (0 : Int) ≤ 0 + 7) ∧
    vaxSelected 0 ⟨1, 1, "Rabies", -30, some 0, none, none, none, true⟩ = false := by
  decide

/-- C1 (amended): for every window `w ≥ 0` the window classification is
inclusive on both ends — `target = today` and `target = today + w` are
selected, `target = today + w + 1` is not — and the daily vaccination scan's
7-day query selects exactly the vaccinations with
`today ≤ next_due_date ≤ today + 7` *whose reminder flag is still unset*. -/
theorem c1_amended (today w : Int) (v : Vaccination) (hw : 0 ≤ w) :
    windowSelected today today w = true ∧
    windowSelected today (today + w) w = true ∧
    windowSelected today (today + w + 1) w = false ∧
    (vaxSelected today v = true ↔
      ∃ d, v.next_due_date = some d ∧ today ≤ d ∧ d ≤ today + 7 ∧
        v.reminder_sent = false) := by
  refine ⟨?_, ?_, ?_, ?_⟩
  · simp only [windowSelected, Bool.and_eq_true, decide_eq_true_eq]
    omega
  · simp only [windowSelected, Bool.and_eq_true, decide_eq_true_eq]
    omega
  · simp only [windowSelected, Bool.and_eq_false_iff, decide_eq_false_iff_not]
    omega
  · unfold vaxSelected windowSelected
    cases v.next_due_date with
    | none => simp
    | some d =>
      simp only [Bool.and_eq_true, decide_eq_true_eq, Bool.not_eq_true',
        Option.some.injEq]
      constructor
      · rintro ⟨⟨h1, h2⟩, h3⟩
        exact ⟨d, rfl, h1, h2, h3⟩
      · rintro ⟨d', hd', h1, h2, h3⟩
        cases hd'
        exact ⟨⟨h1, h2⟩, h3⟩

/-- C1 witness. -/
theorem c1_witness :
    windowSelected 0 0 7 = true ∧
    windowSelected 0 (0 + 7) 7 = true ∧
    windowSelected 0 (0 + 7 + 1) 7 = false ∧
    (vaxSelected 0 ⟨1, 1, "Rabies", -30, some 3, none, none, none, false⟩ = true ↔
      ∃ d, (⟨1, 1, "Rabies", -30, some 3, none, none, none, false⟩ :
          Vaccination).next_due_date = some d ∧ (0 : Int) ≤ d ∧ d ≤ 0 + 7 ∧
        (⟨1, 1, "Rabies", -30, some 3, none, none, none, false⟩ :
          Vaccination).reminder_sent = false) :=
  c1_amended 0 7 ⟨1, 1, "Rabies", -30, some 3, none, none, none, false⟩ (by decide)

/-- C2: an item is overdue iff it has a target date strictly before today:
`target = d - 1` with `today = d` is overdue, `target = today` is not, and a
`NULL` target is never overdue (the shared condition of the
`/api/vaccinations/upcoming` and `/api/health/summary` overdue queries). -/
theorem c2_overdue_iff (d : Int) (t : Option Int) :
    isOverdue d (some (d - 1)) = true ∧
    isOverdue d (some d) = false ∧
    isOverdue d none = false ∧
    (isOverdue d t = true ↔ ∃ x, t = some x ∧ x < d) := by
  refine ⟨?_, ?_, rfl, ?_⟩
  · simp only [isOverdue, decide_eq_true_eq]
    omega
  · simp only [isOverdue, decide_eq_false_iff_not]
    omega
  · cases t with
    | none => simp [isOverdue]
    | some x =>
      simp only [isOverdue, decide_eq_true_eq, Option.some.injEq]
      constructor
      · intro h
        exact ⟨x, rfl, h⟩
      · rintro ⟨x', hx', h⟩
        cases hx'
        exact h

/-- C3: running the daily scan twice on the same data set emits at most one
vaccination reminder per vaccination: the event table is untouched by a
scan, the first run sets `reminder_sent` on every vaccination it reminds
about, the second run selects no vaccination at all (every row is now either
flagged or was outside the window already), with distinct primary keys at
most one reminder per id goes out across both runs — while an active event
inside its window is emitted by both runs. -/
theorem c3_scan_twice (today : Int) (vs : List Vaccination) (es : List Event)
    (e : Event) (i : Nat)
    (hnodup : (vs.map Vaccination.id).Nodup)
    (he : e ∈ es) (hsel : eventSelected today e = true) :
    (scanOnce today vs es).2.2 = es ∧
    (checkVaccinationReminders today (checkVaccinationReminders today vs).2).1 = [] ∧
    (∀ v ∈ (checkVaccinationReminders today vs).1,
      { v with reminder_sent := true } ∈ (checkVaccinationReminders today vs).2) ∧
    List.countP (fun v => v.id == i)
      ((checkVaccinationReminders today vs).1 ++
        (checkVaccinationReminders today (checkVaccinationReminders today vs).2).1) ≤ 1 ∧
    e ∈ (scanOnce today vs es).1.2 ∧
    e ∈ (scanOnce today (scanOnce today vs es).2.1 (scanOnce today vs es).2.2).1.2 := by
  have hempty :
      (checkVaccinationReminders today (checkVaccinationReminders today vs).2).1 = [] := by
    unfold checkVaccinationReminders
    simp only
    rw [List.filter_eq_nil_iff]
    intro a ha
    rcases List.mem_map.1 ha with ⟨v, _, rfl⟩
    simp [vaxSelected_scanStep]
  refine ⟨rfl, hempty, ?_, ?_, ?_, ?_⟩
  · intro v hv
    unfold checkVaccinationReminders at hv ⊢
    simp only at hv ⊢
    rcases List.mem_filter.1 hv with ⟨hmem, hsel'⟩
    refine List.mem_map.2 ⟨v, hmem, ?_⟩
    unfold scanStep
    rw [if_pos hsel']
  · rw [hempty, List.append_nil]
    calc List.countP (fun v => v.id == i) (checkVaccinationReminders today vs).1
        ≤ List.countP (fun v => v.id == i) vs := by
          unfold checkVaccinationReminders
          simp only
          exact countP_filter_le _ _ vs
      _ ≤ 1 := countP_id_le_one i vs hnodup
  · exact List.mem_filter.2 ⟨he, hsel⟩
  · exact List.mem_filter.2 ⟨he, hsel⟩

/-- C3 witness. -/
theorem c3_witness :
    (scanOnce 0 [⟨1, 1, "Rabies", -30, some 5, none, none, none, false⟩]
        [⟨2, 7, none, "Grooming", none, "grooming", 3, false, none, 7, true⟩]).2.2 =
      [⟨2, 7, none, "Grooming", none, "grooming", 3, false, none, 7, true⟩] ∧
    (checkVaccinationReminders 0 (checkVaccinationReminders 0
        [⟨1, 1, "Rabies", -30, some 5, none, none, none, false⟩]).2).1 = [] ∧
    (∀ v ∈ (checkVaccinationReminders 0
        [⟨1, 1, "Rabies", -30, some 5, none, none, none, false⟩]).1,
      { v with reminder_sent := true } ∈ (checkVaccinationReminders 0
        [⟨1, 1, "Rabies", -30, some 5, none, none, none, false⟩]).2) ∧
    List.countP (fun v => v.id == 1)
      ((checkVaccinationReminders 0
          [⟨1, 1, "Rabies", -30, some 5, none, none, none, false⟩]).1 ++
        (checkVaccinationReminders 0 (checkVaccinationReminders 0
          [⟨1, 1, "Rabies", -30, some 5, none, none, none, false⟩]).2).1) ≤ 1 ∧
    (⟨2, 7, none, "Grooming", none, "grooming", 3, false, none, 7, true⟩ : Event) ∈
      (scanOnce 0 [⟨1, 1, "Rabies", -30, some 5, none, none, none, false⟩]
        [⟨2, 7, none, "Grooming", none, "grooming", 3, false, none, 7, true⟩]).1.2 ∧
    (⟨2, 7, none, "Grooming", none, "grooming", 3, false, none, 7, true⟩ : Event) ∈
      (scanOnce 0
        (scanOnce 0 [⟨1, 1, "Rabies", -30, some 5, none, none, none, false⟩]
          [⟨2, 7, none, "Grooming", none, "grooming", 3, false, none, 7, true⟩]).2.1
        (scanOnce 0 [⟨1, 1, "Rabies", -30, some 5, none, none, none, false⟩]
          [⟨2, 7, none, "Grooming", none, "grooming", 3, false, none, 7, true⟩]).2.2).1.2 :=
  c3_scan_twice 0 [⟨1, 1, "Rabies", -30, some 5, none, none, none, false⟩]
    [⟨2, 7, none, "Grooming", none, "grooming", 3, false, none, 7, true⟩]
    ⟨2, 7, none, "Grooming", none, "grooming", 3, false, none, 7, true⟩ 1
    (by decide) (by decide) (by decide)

/-- An operation avoids id `i` when it is not an insert under that primary
key (in the running system ids are fresh `uuidv4()` values, so an id already
present is never re-created). -/
def opAvoids (i : Nat) : VaxOp → Prop
  | .create row => row.id ≠ i
  | _ => True

instance (i : Nat) (op : VaxOp) : Decidable (opAvoids i op) := by
  unfold opAvoids; cases op <;> infer_instance

/-- One operation preserves "every row under id `i` is flagged". -/
theorem flagged_step (i : Nat) (op : VaxOp) (s : List Vaccination)
    (hop : opAvoids i op)
    (hs : ∀ v ∈ s, v.id = i → v.reminder_sent = true) :
    ∀ v ∈ applyOp op s, v.id = i → v.reminder_sent = true := by
  cases op with
  | create row =>
    intro v hv hid
    simp only [applyOp] at hv
    split at hv
    · exact hs v hv hid
    · rcases List.mem_append.1 hv with hv | hv
      · exact hs v hv hid
      · rcases List.mem_singleton.1 hv with rfl
        exact absurd hid hop
  | update j p =>
    intro v hv hid
    simp only [applyOp] at hv
    rcases List.mem_map.1 hv with ⟨w, hw, rfl⟩
    by_cases hj : w.id == j
    · rw [if_pos hj]at hid ⊢
      rw [applyPatch_id]at hid
      have := hs w hw hid
      simpa [applyPatch] using this
    · rw [if_neg hj]at hid ⊢
      exact hs w hw hid
  | delete j =>
    intro v hv hid
    simp only [applyOp] at hv
    exact hs v (List.mem_of_mem_filter hv) hid
  | scan today =>
    intro v hv hid
    simp only [applyOp, checkVaccinationReminders] at hv
    rcases List.mem_map.1 hv with ⟨w, hw, rfl⟩
    rw [scanStep_id]at hid
    exact scanStep_mono today w (hs w hw hid)

/-- A sequence of avoiding operations preserves "every row under id `i` is
flagged". -/
theorem flagged_ops (i : Nat) (ops : List VaxOp) :
    ∀ s : List Vaccination, (∀ op ∈ ops, opAvoids i op) →
    (∀ v ∈ s, v.id = i → v.reminder_sent = true) →
    ∀ v ∈ applyOps ops s, v.id = i → v.reminder_sent = true := by
  induction ops with
  | nil => intro s _ hs; exact hs
  | cons op rest ih =>
    intro s hops hs
    unfold applyOps
    rw [List.foldl_cons]
    exact ih (applyOp op s)
      (fun o ho => hops o (List.mem_cons_of_mem op ho))
      (flagged_step i op s (hops op (List.mem_cons_self op rest)) hs)

/-- C5: the reminder flag is one-way.  Over every sequence of API operations
and scan runs whose inserts use fresh ids, a record that is flagged stays
flagged under its id; the COALESCE patch of `PUT /api/vaccinations/:id`
never touches the flag; and the scan step never lowers it. -/
theorem c5_flag_one_way (ops : List VaxOp) (s0 : List Vaccination)
    (v : Vaccination) (p : VaxPatch) (w : Vaccination) (today : Int)
    (hv : v ∈ s0) (hflag : v.reminder_sent = true)
    (huniq : (s0.map Vaccination.id).Nodup)
    (hfresh : ∀ op ∈ ops, opAvoids v.id op) :
    (∀ u ∈ applyOps ops s0, u.id = v.id → u.reminder_sent = true) ∧
    (applyPatch p w).reminder_sent = w.reminder_sent ∧
    (w.reminder_sent = true → (scanStep today w).reminder_sent = true) := by
  refine ⟨?_, rfl, scanStep_mono today w⟩
  exact flagged_ops v.id ops s0 hfresh (flag_of_nodup s0 v huniq hv hflag)

/-- C5 witness: a flagged record survives an update, a scan, a delete of
another record and a fresh insert, still flagged. -/
theorem c5_witness :
    (∀ u ∈ applyOps
        [VaxOp.update 1 ⟨some "Rabies II", none, some 40, none, none, none⟩,
         VaxOp.scan 0, VaxOp.delete 2,
         VaxOp.create ⟨3, 1, "Lepto", 0, some 9, none, none, none, false⟩]
        [⟨1, 1, "Rabies", -30, some 5, none, none, none, true⟩],
      u.id = (⟨1, 1, "Rabies", -30, some 5, none, none, none, true⟩ :
        Vaccination).id → u.reminder_sent = true) ∧
    (applyPatch ⟨none, none, none, none, none, some "note"⟩
        ⟨4, 2, "DHPP", 0, none, none, none, none, false⟩).reminder_sent =
      (⟨4, 2, "DHPP", 0, none, none, none, none, false⟩ :
        Vaccination).reminder_sent ∧
    ((⟨4, 2, "DHPP", 0, none, none, none, none, false⟩ :
        Vaccination).reminder_sent = true →
      (scanStep 0 ⟨4, 2, "DHPP", 0, none, none, none, none, false⟩).reminder_sent = true) :=
  c5_flag_one_way
    [VaxOp.update 1 ⟨some "Rabies II", none, some 40, none, none, none⟩,
     VaxOp.scan 0, VaxOp.delete 2,
     VaxOp.create ⟨3, 1, "Lepto", 0, some 9, none, none, none, false⟩]
    [⟨1, 1, "Rabies", -30, some 5, none, none, none, true⟩]
    ⟨1, 1, "Rabies", -30, some 5, none, none, none, true⟩
    ⟨none, none, none, none, none, some "note"⟩
    ⟨4, 2, "DHPP", 0, none, none, none, none, false⟩ 0
    (by decide) (by decide) (by decide) (by decide)

/-- C6: `POST /api/vaccinations` with the required fields present and an
owned dog creates the vaccination row, and creates a companion
`vet_appointment` event with `reminder_days_before = 14` and `event_date`
equal to the supplied `next_due_date` exactly when `next_due_date` is set:
the created event list is the singleton for `some due` and empty for
`none`. -/
theorem c6_companion_event (dogs : List Dog)
    (userId newVaxId newEventId dogId : Nat) (nm : String) (da : Int)
    (dg : Dog) (req : VaxRequest)
    (h1 : req.dog_id = some dogId) (h2 : req.vaccine_name = some nm)
    (h3 : req.date_administered = some da)
    (h4 : findOwnedDog dogs dogId userId = some dg) :
    postVaccination dogs userId newVaxId newEventId req =
      .ok (⟨newVaxId, dogId, nm, da, req.next_due_date, req.administered_by,
            req.lot_number, req.notes, false⟩,
        match req.next_due_date with
        | some due =>
          [⟨newEventId, userId, some dogId, nm ++ " Vaccination Due",
            some "Vaccination reminder for your dog", "vet_appointment",
            due, false, none, 14, true⟩]
        | none => []) := by
  simp only [postVaccination, h1, h2, h3, h4]

/-- C6 witness: with `next_due_date` supplied the companion event row is
created; the same call shape with `next_due_date = none` creates no event
(evaluated inside the match of the applied theorem). -/
theorem c6_witness :
    postVaccination [⟨1, 7⟩] 7 10 11
      ⟨some 1, some "Rabies", some 0, some 30, none, none, none⟩ =
      .ok (⟨10, 1, "Rabies", 0, some 30, none, none, none, false⟩,
        [⟨11, 7, some 1, "Rabies Vaccination Due",
          some "Vaccination reminder for your dog", "vet_appointment",
          30, false, none, 14, true⟩]) :=
  c6_companion_event [⟨1, 7⟩] 7 10 11 1 "Rabies" 0 ⟨1, 7⟩
    ⟨some 1, some "Rabies", some 0, some 30, none, none, none⟩
    rfl rfl rfl (by decide)

/-- C7 (counterexample): no `InvalidConfiguration` error exists.
`POST /api/events` with `reminder_days_before = 0` succeeds and silently
stores the default `1`; with `-5` it succeeds and stores `-5`; and the scan
classifier applied to the stored negative window is total — it just selects
nothing — instead of failing. -/
theorem c7_counterexample :
    createEvent [] 7 100 ⟨none, some "Checkup", none, none, some 0, false, none, some 0⟩ =
      .ok ⟨100, 7, none, "Checkup", none, "custom", 0, false, none, 1, true⟩ ∧
    createEvent [] 7 100 ⟨none, some "Checkup", none, none, some 0, false, none, some (-5)⟩ =
      .ok ⟨100, 7, none, "Checkup", none, "custom", 0, false, none, -5, true⟩ ∧
    eventSelected 0 ⟨100, 7, none, "Checkup", none, "custom", 0, false, none, -5, true⟩ = false :=
  ⟨rfl, rfl, rfl⟩

/-- C7 (amended): a non-positive window is not a caller error anywhere in
the code: the window classification is a total predicate — a negative
window selects nothing, a zero window selects exactly `target = today` —
and `POST /api/events` accepts a non-positive `reminder_days_before`
without any error, storing `1` for `0` (JS falsy default) and a negative
value unchanged. -/
theorem c7_amended (today target w : Int) (uid nid : Nat) (t : String)
    (d : Int) (_hw : w ≤ 0) :
    (w < 0 → windowSelected today target w = false) ∧
    (w = 0 → (windowSelected today target w = true ↔ target = today)) ∧
    createEvent [] uid nid ⟨none, some t, none, none, some d, false, none, some w⟩ =
      .ok ⟨nid, uid, none, t, none, "custom", d, false, none,
        (if w = 0 then 1 else w), true⟩ := by
  refine ⟨?_, ?_, ?_⟩
  · intro hneg
    simp only [windowSelected, Bool.and_eq_false_iff, decide_eq_false_iff_not]
    omega
  · intro hzero
    simp only [windowSelected, Bool.and_eq_true, decide_eq_true_eq]
    omega
  · rfl

/-- C7 witness. -/
theorem c7_witness :
    ((-5 : Int) < 0 → windowSelected 0 0 (-5) = false) ∧
    ((-5 : Int) = 0 → (windowSelected 0 0 (-5) = true ↔ (0 : Int) = 0)) ∧
    createEvent [] 7 100 ⟨none, some "Checkup II", none, none, some 0, false, none, some (-5)⟩ =
      .ok ⟨100, 7, none, "Checkup II", none, "custom", 0, false, none,
        (if (-5 : Int) = 0 then 1 else -5), true⟩ :=
  c7_amended 0 0 (-5) 7 100 "Checkup II" 0 (by decide)

/-- The ownership-scoped dog lookup misses whenever no row carries the id
with the caller as owner. -/
theorem findOwnedDog_eq_none (dogs : List Dog) (dogId userId : Nat)
    (h : ∀ dg ∈ dogs, dg.id = dogId → dg.user_id ≠ userId) :
    findOwnedDog dogs dogId userId = none := by
  unfold findOwnedDog
  rw [List.find?_eq_none]
  intro d hd
  simp only [Bool.and_eq_true, beq_iff_eq, not_and]
  exact h d hd

/-- C8: when no dog row carries the requested id with the caller as owner —
which covers both "the dog does not exist" and "the dog exists but belongs
to a different user" — `GET /api/dogs/:id` and
`GET /api/vaccinations/dog/:dogId` both answer with the same
`404 Dog not found` response, so the two cases are indistinguishable to the
caller. -/
theorem c8_ownership_404 (dogs : List Dog) (vaxs : List Vaccination)
    (uid did : Nat) (today : Int)
    (h : ∀ dg ∈ dogs, dg.id = did → dg.user_id ≠ uid) :
    getDog dogs uid did = .error ⟨404, "Dog not found"⟩ ∧
    getDogVaccinations dogs vaxs uid did today = .error ⟨404, "Dog not found"⟩ := by
  have hn := findOwnedDog_eq_none dogs did uid h
  constructor
  · unfold getDog
    rw [hn]
  · unfold getDogVaccinations
    rw [hn]

/-- C8 witness: dog id 1 exists but is owned by user 99; caller 7 receives
the same `404 Dog not found` it would receive for a nonexistent id. -/
theorem c8_witness :
    getDog [⟨1, 99⟩] 7 1 = .error ⟨404, "Dog not found"⟩ ∧
    getDogVaccinations [⟨1, 99⟩] [] 7 1 0 = .error ⟨404, "Dog not found"⟩ :=
  c8_ownership_404 [⟨1, 99⟩] [] 7 1 0 (by decide)

/-- C9: searching the food database for "CHOCOLATE" in any letter case
(any query string that lowercases to `chocolate`) returns exactly one
result — the seeded Chocolate entry, whose `safety_level` is `toxic` — and
searching a term that matches zero rows returns an empty result set as an
ordinary success response, not an error. -/
theorem c9_food_search (q : String)
    (hq : lowerChars q = "chocolate".toList) :
    foodSearchHandler (some q) =
      .ok [⟨"Chocolate", "toxic", false, "toxic"⟩] ∧
    (⟨"Chocolate", "toxic", false, "toxic"⟩ : FoodRow).safety_level = "toxic" ∧
    foodSearchHandler (some "zucchini") = .ok [] := by
  refine ⟨?_, rfl, ?_⟩
  · show Except.ok (searchFood q foodDatabase) =
      Except.ok [⟨"Chocolate", "toxic", false, "toxic"⟩]
    have h1 : searchFood q foodDatabase =
        [⟨"Chocolate", "toxic", false, "toxic"⟩] := by
      simp only [searchFood, likeContains, hq]
      decide
    rw [h1]
  · show Except.ok (searchFood "zucchini" foodDatabase) = Except.ok []
    rw [show searchFood "zucchini" foodDatabase = [] from by decide]

/-- C9 witness: the all-caps query. -/
theorem c9_witness :
    foodSearchHandler (some "CHOCOLATE") =
      .ok [⟨"Chocolate", "toxic", false, "toxic"⟩] ∧
    (⟨"Chocolate", "toxic", false, "toxic"⟩ : FoodRow).safety_level = "toxic" ∧
    foodSearchHandler (some "zucchini") = .ok [] :=
  c9_food_search "CHOCOLATE" (by decide)

/-- The stored reminder lead time of `POST /api/events` is never `0`:
JS `||` replaces the falsy `0` (and an absent field) by the default `1`. -/
theorem storedReminder_ne_zero (r : Option Int) : storedReminder r ≠ 0 := by
  cases r with
  | none => simp [storedReminder]
  | some v =>
    simp only [storedReminder]
    by_cases h : v = 0
    · simp [h]
    · simp only [if_neg h]
      exact h

/-- C10: every event created through `POST /api/events` stores `custom` for
a missing `event_type` and `1` for a missing or zero `reminder_days_before`,
so a lead time of exactly `0` can never be set through the public endpoint —
while the medication companion event is created internally with lead time
`0`. -/
theorem c10_reminder_default (dogs : List Dog) (uid nid : Nat)
    (req : EventRequest) (e : Event)
    (h : createEvent dogs uid nid req = .ok e)
    (medEvId dogId : Nat) (mname : String) (dosage : Option String)
    (freq : String) (sd : Int) :
    e.reminder_days_before ≠ 0 ∧
    (req.event_type = none → e.event_type = "custom") ∧
    ((req.reminder_days_before = none ∨ req.reminder_days_before = some 0) →
      e.reminder_days_before = 1) ∧
    (∃ ev, medicationCompanionEvents uid medEvId dogId mname dosage
        (some freq) sd = [ev] ∧ ev.reminder_days_before = 0) := by
  have he : e.reminder_days_before = storedReminder req.reminder_days_before ∧
      e.event_type = req.event_type.getD "custom" := by
    cases ht : req.title with
    | none => simp [createEvent, ht]at h
    | some t =>
      cases hd : req.event_date with
      | none => simp [createEvent, ht, hd]at h
      | some d =>
        cases hdog : req.dog_id with
        | none =>
          simp [createEvent, ht, hd, hdog]at h
          rw [← h]
          exact ⟨rfl, rfl⟩
        | some dogId' =>
          cases hf : findOwnedDog dogs dogId' uid with
          | none => simp [createEvent, ht, hd, hdog, hf]at h
          | some dg =>
            simp [createEvent, ht, hd, hdog, hf]at h
            rw [← h]
            exact ⟨rfl, rfl⟩
  refine ⟨?_, ?_, ?_, ?_⟩
  · rw [he.1]; exact storedReminder_ne_zero req.reminder_days_before
  · intro ht; rw [he.2, ht]; rfl
  · intro hr
    rw [he.1]
    rcases hr with hr | hr <;> rw [hr] <;> rfl
  · exact ⟨⟨medEvId, uid, some dogId,
      "Give " ++ mname ++ " medication",
      some ("Dosage: " ++ dosage.getD "As prescribed" ++ ". Frequency: " ++ freq),
      "medication", sd, true, some freq, 0, true⟩, rfl, rfl⟩

/-- C10 witness: a request with absent `event_type` and zero
`reminder_days_before`. -/
theorem c10_witness :
    (⟨100, 7, none, "Walk", none, "custom", 5, false, none, 1, true⟩ :
      Event).reminder_days_before ≠ 0 ∧
    ((⟨none, some "Walk", none, none, some 5, false, none, some 0⟩ :
        EventRequest).event_type = none →
      (⟨100, 7, none, "Walk", none, "custom", 5, false, none, 1, true⟩ :
        Event).event_type = "custom") ∧
    (((⟨none, some "Walk", none, none, some 5, false, none, some 0⟩ :
        EventRequest).reminder_days_before = none ∨
      (⟨none, some "Walk", none, none, some 5, false, none, some 0⟩ :
        EventRequest).reminder_days_before = some 0) →
      (⟨100, 7, none, "Walk", none, "custom", 5, false, none, 1, true⟩ :
        Event).reminder_days_before = 1) ∧
    (∃ ev, medicationCompanionEvents 7 200 3 "Heartgard" (some "1 tablet")
        (some "monthly") 12 = [ev] ∧ ev.reminder_days_before = 0) :=
  c10_reminder_default [] 7 100
    ⟨none, some "Walk", none, none, some 5, false, none, some 0⟩
    ⟨100, 7, none, "Walk", none, "custom", 5, false, none, 1, true⟩
    rfl 200 3 "Heartgard" (some "1 tablet") "monthly" 12

/-! ## Calendar lemmas for the anniversary materializer -/

/-- `mkDate` never changes the year (the only possible overflow rolls
February into March). -/
theorem mkDate_year (y m d : Int) : (mkDate y m d).year = y := by
  unfold mkDate; split <;> rfl

/-- Without day overflow `mkDate` is the plain triple. -/
theorem mkDate_of_le (y m d : Int) (h : d ≤ daysInMonth y m) :
    mkDate y m d = ⟨y, m, d⟩ := by
  unfold mkDate; rw [if_neg (by omega)]

/-- Every month has at least 28 days. -/
theorem daysInMonth_ge (y m : Int) : 28 ≤ daysInMonth y m := by
  unfold daysInMonth
  split
  · split <;> omega
  · split <;> omega

/-- February has 28 or 29 days. -/
theorem daysInMonth_feb (y : Int) : daysInMonth y 1 = 28 ∨ daysInMonth y 1 = 29 := by
  unfold daysInMonth
  rw [if_pos rfl]
  split
  · right; rfl
  · left; rfl

/-- Outside February the month length does not depend on the year. -/
theorem daysInMonth_indep (y z m : Int) (hm : m ≠ 1) :
    daysInMonth y m = daysInMonth z m := by
  unfold daysInMonth
  rw [if_neg hm, if_neg hm]

/-- The day of a valid date that is not Feb 29 fits in its month in every
year. -/
theorem day_le_any (s : CDate) (hs : validDate s)
    (h29 : ¬(s.month = 1 ∧ s.day = 29)) (y : Int) :
    s.day ≤ daysInMonth y s.month := by
  obtain ⟨_, _, _, h4⟩ := hs
  by_cases hm : s.month = 1
  · have hd29 : s.day ≠ 29 := fun hd => h29 ⟨hm, hd⟩
    have hf := daysInMonth_feb s.year
    have hg := daysInMonth_ge y s.month
    rw [hm]at h4 hg ⊢
    omega
  · rw [daysInMonth_indep y s.year s.month hm]
    exact h4

/-- A date in a strictly later year is never `dateLt` an earlier one. -/
theorem dateLt_eq_false_of_year_gt (a b : CDate) (h : b.year < a.year) :
    dateLt a b = false := by
  simp only [dateLt, Bool.or_eq_false_iff, Bool.and_eq_false_iff,
    decide_eq_false_iff_not, beq_eq_false_iff_ne, ne_eq]
  omega

/-- The materializer, with its `let` inlined. -/
theorem anniversaryDate_eq (s today : CDate) (am : Bool) :
    anniversaryDate s today am =
      (if jsBeforeNow (mkDate today.year s.month s.day) today am then
        mkDate ((mkDate today.year s.month s.day).year + 1)
          (mkDate today.year s.month s.day).month
          (mkDate today.year s.month s.day).day
      else mkDate today.year s.month s.day) := rfl

/-- C4 (counterexample): dog "Rex" with `date_of_birth = 2020-01-15` created
on `2024-01-15` at any instant after midnight: the composed this-year date
`2024-01-15` equals today — it has **not** already passed by calendar-date
comparison (`dateLt` of the composed date against today is `false`) — yet
the created birthday event is rolled forward to `2025-01-15`, because the
code compares the composed midnight against the full current timestamp
rather than the calendar date. -/
theorem c4_counterexample :
    dogCreationEvents "Rex" (some ⟨2020, 0, 15⟩) none ⟨2024, 0, 15⟩ true =
      [⟨"Rex\x27s Birthday", "birthday", ⟨2025, 0, 15⟩, true, some "yearly", 7⟩] ∧
    mkDate 2024 0 15 = ⟨2024, 0, 15⟩ ∧
    dateLt ⟨2024, 0, 15⟩ ⟨2024, 0, 15⟩ = false := by
  refine ⟨?_, by decide, by decide⟩
  show [(⟨"Rex\x27s Birthday", "birthday", anniversaryDate ⟨2020, 0, 15⟩ ⟨2024, 0, 15⟩ true,
    true, some "yearly", 7⟩ : CalEvent)] ++ [] = _
  rw [show anniversaryDate ⟨2020, 0, 15⟩ ⟨2024, 0, 15⟩ true = ⟨2025, 0, 15⟩ from by decide]
  rfl

/-- C4 (amended): creating a dog with a `date_of_birth` (resp.
`adoption_date`) creates exactly one recurring yearly event of type
`birthday` (resp. `adoption_anniversary`) whose date lies in the current or
next calendar year and is `≥` today; the composed this-year date is rolled
forward to next year exactly when its midnight lies strictly before the
creation instant — before today by calendar comparison, or equal to today
with creation after midnight; and the event shares the month and day of the
source date, except that a Feb 29 source normalizes to Mar 1 in a non-leap
target year. -/
theorem c4_amended (s today : CDate) (am : Bool) (name : String)
    (hs : validDate s) (_ht : validDate today) :
    dogCreationEvents name (some s) none today am =
      [⟨name ++ "\x27s Birthday", "birthday", anniversaryDate s today am,
        true, some "yearly", 7⟩] ∧
    dogCreationEvents name none (some s) today am =
      [⟨name ++ "\x27s Gotcha Day", "adoption_anniversary",
        anniversaryDate s today am, true, some "yearly", 7⟩] ∧
    dateLt (anniversaryDate s today am) today = false ∧
    ((anniversaryDate s today am).year = today.year ∨
      (anniversaryDate s today am).year = today.year + 1) ∧
    ((anniversaryDate s today am).year = today.year + 1 ↔
      (dateLt (mkDate today.year s.month s.day) today = true ∨
        (mkDate today.year s.month s.day = today ∧ am = true))) ∧
    (if s.month = 1 ∧ s.day = 29 then
      ((anniversaryDate s today am).month = 1 ∧
        (anniversaryDate s today am).day = 29) ∨
      ((anniversaryDate s today am).month = 2 ∧
        (anniversaryDate s today am).day = 1)
     else ((anniversaryDate s today am).month = s.month ∧
       (anniversaryDate s today am).day = s.day)) := by
  refine ⟨rfl, rfl, ?_, ?_, ?_, ?_⟩
  · -- the stored date is never before today
    rw [anniversaryDate_eq]
    cases hb : jsBeforeNow (mkDate today.year s.month s.day) today am
    · rw [if_neg (by simp [hb])]
      simp only [jsBeforeNow, Bool.or_eq_false_iff] at hb
      exact hb.1
    · rw [if_pos rfl]
      exact dateLt_eq_false_of_year_gt _ _ (by rw [mkDate_year, mkDate_year]; omega)
  · -- current or next year
    rw [anniversaryDate_eq]
    cases hb : jsBeforeNow (mkDate today.year s.month s.day) today am
    · rw [if_neg (by simp [hb])]
      exact Or.inl (mkDate_year _ _ _)
    · rw [if_pos rfl]
      right
      rw [mkDate_year, mkDate_year]
  · -- rolled forward exactly when the composed midnight precedes the instant
    rw [anniversaryDate_eq]
    cases hb : jsBeforeNow (mkDate today.year s.month s.day) today am
    · rw [if_neg (by simp [hb])]
      simp only [jsBeforeNow, Bool.or_eq_false_iff, Bool.and_eq_false_iff,
        beq_eq_false_iff_ne, ne_eq] at hb
      constructor
      · intro hy
        rw [mkDate_year]at hy
        omega
      · rintro (h1 | ⟨h2, h3⟩)
        · exact absurd h1 (by simp [hb.1])
        · rcases hb.2 with h | h
          · exact absurd h2 h
          · rw [h3]at h
            cases h
    · rw [if_pos rfl]
      simp only [jsBeforeNow, Bool.or_eq_true, Bool.and_eq_true, beq_iff_eq] at hb
      constructor
      · intro _
        exact hb
      · intro _
        rw [mkDate_year, mkDate_year]
  · -- month/day of the stored date
    by_cases h29 : s.month = 1 ∧ s.day = 29
    · rw [if_pos h29]
      obtain ⟨hm, hd⟩ := h29
      rw [anniversaryDate_eq, hm, hd]
      rcases daysInMonth_feb today.year with hf | hf
      · -- non-leap current year: the composed date is already Mar 1
        have hC : mkDate today.year 1 29 = ⟨today.year, 2, 1⟩ := by
          unfold mkDate
          rw [if_pos (by rw [hf]; omega), hf]
          norm_num
        rw [hC]
        cases hb : jsBeforeNow (⟨today.year, 2, 1⟩ : CDate) today am
        · rw [if_neg (by simp [hb])]
          right
          exact ⟨rfl, rfl⟩
        · rw [if_pos rfl]
          have h1 : (1 : Int) ≤ daysInMonth ((⟨today.year, 2, 1⟩ : CDate).year + 1) 2 := by
            have := daysInMonth_ge ((⟨today.year, 2, 1⟩ : CDate).year + 1) 2
            omega
          rw [mkDate_of_le _ _ _ h1]
          right
          exact ⟨rfl, rfl⟩
      · -- leap current year: the composed date is Feb 29
        have hC : mkDate today.year 1 29 = ⟨today.year, 1, 29⟩ :=
          mkDate_of_le _ _ _ (by omega)
        rw [hC]
        cases hb : jsBeforeNow (⟨today.year, 1, 29⟩ : CDate) today am
        · rw [if_neg (by simp [hb])]
          left
          exact ⟨rfl, rfl⟩
        · rw [if_pos rfl]
          rcases daysInMonth_feb (today.year + 1) with hf2 | hf2
          · -- rolled into a non-leap year: Mar 1
            have : mkDate ((⟨today.year, 1, 29⟩ : CDate).year + 1) 1 29 =
                ⟨today.year + 1, 2, 1⟩ := by
              unfold mkDate
              rw [if_pos (by rw [hf2]; omega), hf2]
              norm_num
            rw [this]
            right
            exact ⟨rfl, rfl⟩
          · -- rolled into a leap year: Feb 29 again
            have : mkDate ((⟨today.year, 1, 29⟩ : CDate).year + 1) 1 29 =
                ⟨today.year + 1, 1, 29⟩ :=
              mkDate_of_le _ _ _ (by exact le_of_eq hf2.symm)
            rw [this]
            left
            exact ⟨rfl, rfl⟩
    · rw [if_neg h29]
      have hle := day_le_any s hs h29
      have hC : mkDate today.year s.month s.day = ⟨today.year, s.month, s.day⟩ :=
        mkDate_of_le _ _ _ (hle today.year)
      rw [anniversaryDate_eq, hC]
      cases hb : jsBeforeNow (⟨today.year, s.month, s.day⟩ : CDate) today am
      · rw [if_neg (by simp [hb])]
        exact ⟨rfl, rfl⟩
      · rw [if_pos rfl]
        have : mkDate ((⟨today.year, s.month, s.day⟩ : CDate).year + 1) s.month s.day =
            ⟨today.year + 1, s.month, s.day⟩ :=
          mkDate_of_le _ _ _ (hle (today.year + 1))
        rw [this]
        exact ⟨rfl, rfl⟩

/-- C4 witness: source `2020-01-10`, today `2024-01-15` (the spec's own
scenario): exactly one birthday event at `2025-01-10`, next year, `≥`
today, same month/day, rolled because Jan 10 has passed. -/
theorem c4_witness :
    dogCreationEvents "Rex" (some ⟨2020, 0, 10⟩) none ⟨2024, 0, 15⟩ true =
      [⟨"Rex\x27s Birthday", "birthday",
        anniversaryDate ⟨2020, 0, 10⟩ ⟨2024, 0, 15⟩ true, true, some "yearly", 7⟩] ∧
    dogCreationEvents "Rex" none (some ⟨2020, 0, 10⟩) ⟨2024, 0, 15⟩ true =
      [⟨"Rex\x27s Gotcha Day", "adoption_anniversary",
        anniversaryDate ⟨2020, 0, 10⟩ ⟨2024, 0, 15⟩ true, true, some "yearly", 7⟩] ∧
    dateLt (anniversaryDate ⟨2020, 0, 10⟩ ⟨2024, 0, 15⟩ true) ⟨2024, 0, 15⟩ = false ∧
    ((anniversaryDate ⟨2020, 0, 10⟩ ⟨2024, 0, 15⟩ true).year = (⟨2024, 0, 15⟩ : CDate).year ∨
      (anniversaryDate ⟨2020, 0, 10⟩ ⟨2024, 0, 15⟩ true).year = (⟨2024, 0, 15⟩ : CDate).year + 1) ∧
    ((anniversaryDate ⟨2020, 0, 10⟩ ⟨2024, 0, 15⟩ true).year = (⟨2024, 0, 15⟩ : CDate).year + 1 ↔
      (dateLt (mkDate (⟨2024, 0, 15⟩ : CDate).year (⟨2020, 0, 10⟩ : CDate).month
          (⟨2020, 0, 10⟩ : CDate).day) ⟨2024, 0, 15⟩ = true ∨
        (mkDate (⟨2024, 0, 15⟩ : CDate).year (⟨2020, 0, 10⟩ : CDate).month
          (⟨2020, 0, 10⟩ : CDate).day = ⟨2024, 0, 15⟩ ∧ true = true))) ∧
    (if (⟨2020, 0, 10⟩ : CDate).month = 1 ∧ (⟨2020, 0, 10⟩ : CDate).day = 29 then
      ((anniversaryDate ⟨2020, 0, 10⟩ ⟨2024, 0, 15⟩ true).month = 1 ∧
        (anniversaryDate ⟨2020, 0, 10⟩ ⟨2024, 0, 15⟩ true).day = 29) ∨
      ((anniversaryDate ⟨2020, 0, 10⟩ ⟨2024, 0, 15⟩ true).month = 2 ∧
        (anniversaryDate ⟨2020, 0, 10⟩ ⟨2024, 0, 15⟩ true).day = 1)
     else ((anniversaryDate ⟨2020, 0, 10⟩ ⟨2024, 0, 15⟩ true).month =
         (⟨2020, 0, 10⟩ : CDate).month ∧
       (anniversaryDate ⟨2020, 0, 10⟩ ⟨2024, 0, 15⟩ true).day =
         (⟨2020, 0, 10⟩ : CDate).day)) :=
  c4_amended ⟨2020, 0, 10⟩ ⟨2024, 0, 15⟩ true "Rex" (by decide) (by decide)

end PawCare
